import Mathlib

/-!
Verification development for the evaluation engine of a small tree-walking
interpreter (a Lox dialect).  The repository's source tree contains one file,
`src/interpreter/callable.rs`, holding the callable dispatch layer: the
native `Clock`, the user `Function` (declaration + captured `closure`
SymbolTable), `Function::call` / `Function::arity`, and the `Display`
implementations.  Those definitions are translated from that source.

The collaborators used by `callable.rs` — `SymbolTable` internals
(`deep_copy`, `exists`, `define`, `get`), the `Interpreter`
(`execute_block`, expression evaluation, the `ret` field) and the parser's
AST — live in files that are not part of the source tree; those are
modelled from the specification, with their interfaces fixed by how
`callable.rs` uses them.  Each such definition carries a doc comment
starting `Modelled from the spec:`.

Numbers: the source stores `f64`.  Every numeric literal and arithmetic
operation appearing in the verified programs is a small integer, on which
IEEE double arithmetic is exact and whose Rust `Display` rendering ("1",
"2", …) coincides with the decimal rendering of the integer, so numbers are
embedded as `Int`.

Host panics (Rust `panic!` / `unwrap` failures) are embedded as the
distinguished error value `RuntimeErr.hostAbort`; they are distinct from
every scripted-language error value of the spec's error model.
-/

namespace Lox

/-- `lexer::Token`, as used by `callable.rs`: only the `Identifier` shape is
inspected (parameter lists are token vectors); every other token shape is
collapsed into one constructor. -/
inductive Token where
  | identifier (name : String)
  | other
deriving DecidableEq

/-- `parser::ast::Literal`: nil, booleans, numbers (see the header note on
`f64` vs `Int`), strings. -/
inductive Lit where
  | nil
  | bool (b : Bool)
  | num (n : Int)
  | str (s : String)
deriving DecidableEq

/-- Binary operators of the expression grammar (spec section 6); the verified
programs use `+`, `-` and `>`. -/
inductive BinOp where
  | plus
  | minus
  | greater
deriving DecidableEq

/-- Unary operators of the expression grammar (spec section 6). -/
inductive UnOp where
  | neg
  | bang
deriving DecidableEq

/-- Modelled from the spec: the expression AST produced by the external
parser (spec section 6): Literal, Variable, Assign, Binary, Unary, Call,
Grouping. -/
inductive Expr where
  | lit (l : Lit)
  | var (name : String)
  | assign (name : String) (value : Expr)
  | binary (op : BinOp) (lhs rhs : Expr)
  | unary (op : UnOp) (e : Expr)
  | call (callee : Expr) (args : List Expr)
  | grouping (e : Expr)

/-- Modelled from the spec: the statement AST (spec section 6).  The shape of
`Stmt::Function` — a name, an `Option`al parameter token list and a boxed
body statement — is fixed by its destructuring in `callable.rs`
(`Stmt::Function { parameters, body, .. }`, `parameters.map_or(0, |p| p.len())`,
`if let Stmt::Block(body) = body`). -/
inductive Stmt where
  | expression (e : Expr)
  | print (e : Expr)
  | varDecl (name : String) (init : Option Expr)
  | block (stmts : List Stmt)
  | ifStmt (cond : Expr) (thenB : Stmt) (elseB : Option Stmt)
  | whileStmt (cond : Expr) (body : Stmt)
  | function (name : String) (parameters : Option (List Token)) (body : Stmt)
  | returnStmt (value : Option Expr)

/-- `symbol_table::SymbolTable` as it appears in `callable.rs`:
`{ enclosing: Option<SymbolTable>, values: Rc<RefCell<HashMap<String, Object>>> }`.
The shared `Rc<RefCell<…>>` map is embedded as a cell id (`values : Nat`)
into the interpreter state's heap of cells, so two `SymbolTable` values with
the same id alias the same storage, exactly as two `Rc` clones do. -/
inductive SymbolTable where
  | mk (values : Nat) (enclosing : Option SymbolTable)

/-- The cell id of a frame (`values` field). -/
def SymbolTable.vid : SymbolTable → Nat
  | .mk v _ => v

/-- The enclosing frame, if any. -/
def SymbolTable.enc : SymbolTable → Option SymbolTable
  | .mk _ e => e

/-- `Function` from `callable.rs`: an AST declaration (expected to be a
`Stmt::Function`) together with the captured `closure` SymbolTable. -/
structure Function where
  declaration : Stmt
  closure : SymbolTable

/-- `symbol_table::Object`: a runtime value — a literal (`Object::L`) or a
callable (the native clock or a user function). -/
inductive Obj where
  | l (lit : Lit)
  | clock
  | function (f : Function)

/-- Error model (spec section 7) plus the two embedding-specific outcomes:
`hostAbort` (a Rust panic — `unwrap` on a missing argument, or the `panic!()`
arms of `callable.rs`) and `fuel` (the step-index of the embedding ran out;
never reached in the verified runs). -/
inductive RuntimeErr where
  | undefinedVariable (name : String)
  | arityMismatch (expected got : Nat)
  | notCallable
  | typeMismatch
  | hostAbort
  | fuel
deriving DecidableEq

/-- Interpreter state: the heap of `Rc<RefCell<HashMap>>` cells (cell id =
list index), the `Interpreter::ret` field visible in `callable.rs`
(`interpreter.ret.take().map_or(None, |r| r.right())`: an optional
`Either`, `inl` = a `return;` with no value, `inr v` = `return v;`), the
accumulated standard output, and the host clock reading used by `Clock`. -/
structure InterpState where
  cells : List (List (String × Obj))
  ret : Option (Unit ⊕ Obj)
  output : List String
  now : Int

/-- Lookup in one cell's association list. -/
def assocGet : List (String × Obj) → String → Option Obj
  | [], _ => none
  | (k, v) :: rest, key => if k = key then some v else assocGet rest key

/-- Insert-or-overwrite in one cell's association list (`HashMap::insert`). -/
def assocSet : List (String × Obj) → String → Obj → List (String × Obj)
  | [], key, v => [(key, v)]
  | (k, w) :: rest, key, v =>
      if k = key then (k, v) :: rest else (k, w) :: assocSet rest key v

/-- The contents of cell `i` (a missing id reads as an empty map; reachable
states only ever use allocated ids). -/
def cellGet (cells : List (List (String × Obj))) (i : Nat) : List (String × Obj) :=
  cells.getD i []

/-- Overwrite one binding inside cell `i`. -/
def setCell (st : InterpState) (i : Nat) (key : String) (v : Obj) : InterpState :=
  { st with cells := st.cells.set i (assocSet (cellGet st.cells i) key v) }

/-- Allocate a fresh cell holding `contents`; returns its id. -/
def allocCell (st : InterpState) (contents : List (String × Obj)) : Nat × InterpState :=
  (st.cells.length, { st with cells := st.cells ++ [contents] })

/-- Modelled from the spec: `SymbolTable::get` (src/symbol_table.rs is not in
the source tree) — lexical lookup walking from the frame outward through
`enclosing` links (spec section 4.1). -/
def SymbolTable.get : SymbolTable → InterpState → String → Option Obj
  | .mk v enc, st, key =>
      match assocGet (cellGet st.cells v) key with
      | some o => some o
      | none =>
          match enc with
          | none => none
          | some e => e.get st key

/-- Modelled from the spec: `SymbolTable::define` — insert/overwrite in the
current frame's bindings, never in an ancestor (spec section 4.1). -/
def SymbolTable.define (tbl : SymbolTable) (key : String) (v : Obj)
    (st : InterpState) : InterpState :=
  setCell st tbl.vid key v

/-- Modelled from the spec: `SymbolTable::assign` — overwrite at the nearest
frame that already binds the name; `none` (UndefinedVariable) when no frame
does (spec section 4.1). -/
def SymbolTable.assign : SymbolTable → String → Obj → InterpState → Option InterpState
  | .mk v enc, key, o, st =>
      if (assocGet (cellGet st.cells v) key).isSome then some (setCell st v key o)
      else
        match enc with
        | none => none
        | some e => e.assign key o st

/-- Modelled from the spec: `SymbolTable::exists` as used by
`callable.rs` (`env.exists(param)`) — whether the name resolves anywhere in
the frame chain. -/
def SymbolTable.existsName (tbl : SymbolTable) (st : InterpState) (key : String) : Bool :=
  (tbl.get st key).isSome

/-- Modelled from the spec: `SymbolTable::deep_copy` as used by
`callable.rs` (`self.closure.deep_copy()`), the copying strategy the spec's
section 9 describes (and forbids): every frame of the chain is copied into a
fresh cell holding the same bindings.  The `Obj` values themselves are
cloned shallowly, exactly as Rust `Clone` on `Function` clones the `Rc`
inside its `closure` — a function value inside the copied map keeps its
original captured frame. -/
def SymbolTable.deepCopy : SymbolTable → InterpState → SymbolTable × InterpState
  | .mk v none, st =>
      let (i, st') := allocCell st (cellGet st.cells v)
      (.mk i none, st')
  | .mk v (some e), st =>
      let (e', st') := e.deepCopy st
      let (i, st'') := allocCell st' (cellGet st'.cells v)
      (.mk i (some e'), st'')

/-- `Clock::arity` from the source: the fixed constant 0. -/
def Clock.arity : Nat := 0

/-- `impl Display for Clock` from the source: `write!(f, "<native fn clock>")`. -/
def Clock.display : String := "<native fn clock>"

/-- `Function::arity` from the source:
`parameters.clone().map_or(0, |p| p.len())` when the declaration is a
`Stmt::Function`, and `panic!()` (here `none`) otherwise. -/
def Function.arity (f : Function) : Option Nat :=
  match f.declaration with
  | .function _ ps _ => some (match ps with | none => 0 | some l => l.length)
  | _ => none

/-- `impl Display for Function` from the source: `write!(f, "<fn {}>", name)`
when the declaration is a `Stmt::Function`, and `panic!()` (here `none`)
otherwise. -/
def Function.display (f : Function) : Option String :=
  match f.declaration with
  | .function name _ _ => some ("<fn " ++ name ++ ">")
  | _ => none

/-- The parameter-binding loop of `Function::call` (source lines 80–90),
with `i` the running `enumerate` index:
for each parameter token that is an `Identifier`, `arguments.get(i).unwrap()`
— a host panic when the argument vector is too short — then
`if env.exists(param) { rec_existing.define(param, arg) }` and
`env.define(param, arg)`.  Non-identifier tokens are skipped without
touching the argument vector.  Arguments beyond the parameter count are
never read. -/
def bindParams : List Token → Nat → List Obj → SymbolTable → SymbolTable →
    InterpState → Except RuntimeErr InterpState
  | [], _, _, _, _, st => .ok st
  | .identifier p :: ps, i, args, recE, env, st =>
      match args.get? i with
      | none => .error .hostAbort
      | some a =>
          let st1 := if env.existsName st p then recE.define p a st else st
          let st2 := env.define p a st1
          bindParams ps (i + 1) args recE env st2
  | .other :: ps, i, args, recE, env, st => bindParams ps (i + 1) args recE env st

/-- The copy-back loop of `Function::call` (source lines 94–100): for every
key currently present in the captured closure's own cell, overwrite that
cell's binding with `ret_env.get(key)`.  A key the returned environment
cannot resolve would make the Rust `get` fail in the host (never reached:
the environment began as a copy of the closure and bindings are never
removed). -/
def copyBack (vid : Nat) (env : SymbolTable) : List String → InterpState →
    Except RuntimeErr InterpState
  | [], st => .ok st
  | key :: keys, st =>
      match env.get st key with
      | none => .error .hostAbort
      | some v => copyBack vid env keys (setCell st vid key v)

/-- Truthiness of a runtime value (Lox rule: `nil` and `false` are falsy,
everything else truthy). -/
def truthy : Obj → Bool
  | .l .nil => false
  | .l (.bool b) => b
  | _ => true

/-- Modelled from the spec: the textual rendering a `print` statement writes
(spec section 6) — `nil`, `true`/`false`, the canonical decimal rendering of
numbers, literal string content — except for the two callable cases, which
come from the source `Display` implementations in `callable.rs`.  A
user-function value whose declaration is malformed renders as `none` (the
host `Display` panics). -/
def render : Obj → Option String
  | .l .nil => some "nil"
  | .l (.bool true) => some "true"
  | .l (.bool false) => some "false"
  | .l (.num n) => some (toString n)
  | .l (.str s) => some s
  | .clock => some Clock.display
  | .function f => f.display

/-- Modelled from the spec: binary operator semantics (spec section 4.3) —
standard numeric semantics, string concatenation for `+`, `TypeMismatch`
on incompatible operand types.  Only the operators the verified programs
use are included. -/
def binOpEval : BinOp → Obj → Obj → Except RuntimeErr Obj
  | .plus, .l (.num a), .l (.num b) => .ok (.l (.num (a + b)))
  | .plus, .l (.str a), .l (.str b) => .ok (.l (.str (a ++ b)))
  | .minus, .l (.num a), .l (.num b) => .ok (.l (.num (a - b)))
  | .greater, .l (.num a), .l (.num b) => .ok (.l (.bool (decide (b < a))))
  | _, _, _ => .error .typeMismatch

/-- Modelled from the spec: unary operator semantics (spec section 4.3). -/
def unOpEval : UnOp → Obj → Except RuntimeErr Obj
  | .neg, .l (.num a) => .ok (.l (.num (-a)))
  | .neg, _ => .error .typeMismatch
  | .bang, o => .ok (.l (.bool (!truthy o)))

/-- The value a call expression yields where a value is required: the
returned value, or `Nil` when the call produced no value (spec
section 4.3). -/
def callResultValue : Option Obj → Obj
  | some v => v
  | none => .l .nil

/-- `Clock::call` from the source: ignores its arguments and returns
`Object::L(Literal::Float(now))`, the host clock reading (embedded as the
state's `now` field; real wall-clock time is outside the embedding). -/
def Clock.call (st : InterpState) : Option Obj × InterpState :=
  (some (.l (.num st.now)), st)

/-- Turn the taken `ret` signal into the call's result:
`interpreter.ret.take().map_or(None, |r| r.right())` from the source. -/
def retToValue : Option (Unit ⊕ Obj) → Option Obj
  | some (.inr v) => some v
  | _ => none

mutual

/-- Modelled from the spec: expression evaluation (src/interpreter.rs is not
in the source tree) — a function from expression and current frame to a
Value (spec section 4.3), with call expressions recursing into statement
execution.  The `fuel` index bounds host recursion depth; running out of it
yields `RuntimeErr.fuel`. -/
def evalExpr : Nat → Expr → SymbolTable → InterpState →
    Except RuntimeErr (Obj × InterpState)
  | 0, _, _, _ => .error .fuel
  | fuel + 1, e, env, st =>
    match e with
    | .lit l => .ok (.l l, st)
    | .var name =>
        match env.get st name with
        | some v => .ok (v, st)
        | none => .error (.undefinedVariable name)
    | .assign name value => do
        let (v, st1) ← evalExpr fuel value env st
        match env.assign name v st1 with
        | some st2 => .ok (v, st2)
        | none => .error (.undefinedVariable name)
    | .binary op lhs rhs => do
        let (a, st1) ← evalExpr fuel lhs env st
        let (b, st2) ← evalExpr fuel rhs env st1
        let v ← binOpEval op a b
        .ok (v, st2)
    | .unary op operand => do
        let (a, st1) ← evalExpr fuel operand env st
        let v ← unOpEval op a
        .ok (v, st1)
    | .grouping inner => evalExpr fuel inner env st
    | .call callee args => do
        let (c, st1) ← evalExpr fuel callee env st
        let (vals, st2) ← evalArgs fuel args env st1
        match c with
        | .clock =>
            let (r, st3) := Clock.call st2
            .ok (callResultValue r, st3)
        | .function f => do
            let (r, st3) ← Function.call fuel f vals st2
            .ok (callResultValue r, st3)
        | _ => .error .notCallable

/-- Modelled from the spec: left-to-right evaluation of a call's argument
expressions. -/
def evalArgs : Nat → List Expr → SymbolTable → InterpState →
    Except RuntimeErr (List Obj × InterpState)
  | 0, _, _, _ => .error .fuel
  | fuel + 1, es, env, st =>
    match es with
    | [] => .ok ([], st)
    | e :: rest => do
        let (v, st1) ← evalExpr fuel e env st
        let (vs, st2) ← evalArgs fuel rest env st1
        .ok (v :: vs, st2)

/-- `Function::call` translated from the source (callable.rs lines 64–108):
require the declaration to be a `Stmt::Function` (else `panic!()`); build the
never-read `rec_existing` table; `deep_copy` the captured closure into `env`;
run the parameter-binding loop (`arguments.get(i).unwrap()` — no arity
check); require the body to be a `Stmt::Block` (else `panic!()`); execute the
block's statements in `env`; copy every key of the closure's own cell back
from the returned environment; finally take `interpreter.ret` and keep only a
`Right` value as the call's result. -/
def Function.call : Nat → Function → List Obj → InterpState →
    Except RuntimeErr (Option Obj × InterpState)
  | 0, _, _, _ => .error .fuel
  | fuel + 1, f, args, st =>
    match f.declaration with
    | .function _ parameters body =>
        let ac := allocCell st []
        let recE : SymbolTable := .mk ac.1 none
        let dc := f.closure.deepCopy ac.2
        let env := dc.1
        match bindParams (parameters.getD []) 0 args recE env dc.2 with
        | .error err => .error err
        | .ok st3 =>
            match body with
            | .block stmts => do
                let st4 ← execStmts fuel stmts env st3
                let names := (cellGet st4.cells f.closure.vid).map Prod.fst
                let st5 ← copyBack f.closure.vid env names st4
                let r := st5.ret
                let st6 := { st5 with ret := none }
                .ok (retToValue r, st6)
            | _ => .error .hostAbort
    | _ => .error .hostAbort

/-- Modelled from the spec: execution of one statement for effect inside the
current frame (spec sections 4.1 and 4.3).  A `fun` declaration stores a
`Function` capturing the frame active at the declaration and binds it under
its name in that same frame; a block executes its statements in a fresh
child frame; `return` records the signal in the evaluator's `ret` field
(the mechanism `callable.rs` consumes). -/
def execStmt : Nat → Stmt → SymbolTable → InterpState →
    Except RuntimeErr InterpState
  | 0, _, _, _ => .error .fuel
  | fuel + 1, s, env, st =>
    match s with
    | .expression e => do
        let (_, st1) ← evalExpr fuel e env st
        .ok st1
    | .print e => do
        let (v, st1) ← evalExpr fuel e env st
        match render v with
        | some txt => .ok { st1 with output := st1.output ++ [txt] }
        | none => .error .hostAbort
    | .varDecl name init => do
        let (v, st1) ←
          match init with
          | none => .ok (Obj.l .nil, st)
          | some e => evalExpr fuel e env st
        .ok (env.define name v st1)
    | .block stmts =>
        let (cid, st1) := allocCell st []
        execStmts fuel stmts (.mk cid (some env)) st1
    | .ifStmt cond thenB elseB => do
        let (c, st1) ← evalExpr fuel cond env st
        if truthy c then execStmt fuel thenB env st1
        else
          match elseB with
          | none => .ok st1
          | some e => execStmt fuel e env st1
    | .whileStmt cond body => do
        let (c, st1) ← evalExpr fuel cond env st
        if truthy c then do
          let st2 ← execStmt fuel body env st1
          if st2.ret.isSome then .ok st2
          else execStmt fuel (.whileStmt cond body) env st2
        else .ok st1
    | .function name parameters body =>
        .ok (env.define name (.function ⟨.function name parameters body, env⟩) st)
    | .returnStmt value =>
        match value with
        | none => .ok { st with ret := some (.inl ()) }
        | some e => do
            let (v, st1) ← evalExpr fuel e env st
            .ok { st1 with ret := some (.inr v) }

/-- Modelled from the spec: `Interpreter::execute_block` — execute a
statement list in order inside the given frame, short-circuiting the
remainder the moment a `return` has been triggered (spec section 4.3); the
environment (`ret_env` at the `callable.rs` call site) is threaded back
unchanged, the in-flight return travelling in the state's `ret` field. -/
def execStmts : Nat → List Stmt → SymbolTable → InterpState →
    Except RuntimeErr InterpState
  | 0, _, _, _ => .error .fuel
  | fuel + 1, stmts, env, st =>
    match stmts with
    | [] => .ok st
    | s :: rest =>
        if st.ret.isSome then .ok st
        else do
          let st1 ← execStmt fuel s env st
          execStmts fuel rest env st1

end

/-- Whether every token of a parameter list is an `Identifier` (the parser
only ever produces identifier tokens in parameter position). -/
def allIdents : List Token → Bool
  | [] => true
  | .identifier _ :: rest => allIdents rest
  | .other :: _ => false

/-- Whether a statement is a `Stmt::Function` declaration. -/
def Stmt.isFunctionDecl : Stmt → Bool
  | .function _ _ _ => true
  | _ => false

/-- Whether a statement is a `Stmt::Block`. -/
def Stmt.isBlockStmt : Stmt → Bool
  | .block _ => true
  | _ => false

/-- Modelled from the spec: the initial interpreter state — one global frame
(cell 0), no pending return, empty output. -/
def initState : InterpState := { cells := [[]], ret := none, output := [], now := 0 }

/-- The globals frame. -/
def globals : SymbolTable := .mk 0 none

/-- Modelled from the spec: `Interpreter::interpret` — run a top-level
statement list in the globals frame and report the produced standard
output. -/
def runOutput (prog : List Stmt) (fuel : Nat) : Except RuntimeErr (List String) :=
  (execStmts fuel prog globals initState).map (fun st => st.output)

end Lox

/-!
The `LoxRef` namespace is the reference evaluator built from the
specification's own words (sections 4.1–4.3), used to compare the source's
behaviour against the specified behaviour: scope frames are shared by
reference and never copied (`child` links a fresh empty frame to its parent;
closures store the frame id captured at declaration), a call checks the
argument count against the arity and fails with `ArityMismatch` on
disagreement, and the return signal is an explicit two-state `Outcome`
threaded as the return value of statement execution.  Every definition here
is modelled from the spec.
-/

namespace LoxRef

open Lox (Token Lit BinOp UnOp Expr Stmt RuntimeErr)

/-- Modelled from the spec: a runtime Value (spec section 3) — the callable
variants carry what the spec's UserFunction record holds: name, parameters,
body and the captured frame id (a shared reference, not a copy). -/
inductive SObj where
  | nil
  | bool (b : Bool)
  | num (n : Int)
  | str (s : String)
  | native
  | fnV (name : String) (parameters : Option (List Token)) (body : Stmt) (closure : Nat)

/-- Modelled from the spec: a Scope Frame — bindings plus an optional
enclosing frame reference (spec section 3). -/
structure Frame where
  bindings : List (String × SObj)
  enclosing : Option Nat

/-- Modelled from the spec: evaluator state — the live frames (frame id =
list index; sharing a frame id is sharing the storage) and the output
channel. -/
structure SState where
  frames : List Frame
  output : List String
  now : Int

/-- Lookup in one frame's bindings. -/
def sAssocGet : List (String × SObj) → String → Option SObj
  | [], _ => none
  | (k, v) :: rest, key => if k = key then some v else sAssocGet rest key

/-- Insert-or-overwrite in one frame's bindings. -/
def sAssocSet : List (String × SObj) → String → SObj → List (String × SObj)
  | [], key, v => [(key, v)]
  | (k, w) :: rest, key, v =>
      if k = key then (k, v) :: rest else (k, w) :: sAssocSet rest key v

/-- The frame with id `i`. -/
def frameGet (st : SState) (i : Nat) : Frame :=
  st.frames.getD i ⟨[], none⟩

/-- Modelled from the spec: `define` — insert/overwrite in the current
frame's bindings; always succeeds (spec section 4.1). -/
def define (st : SState) (i : Nat) (key : String) (v : SObj) : SState :=
  { st with frames :=
      st.frames.set i { frameGet st i with
        bindings := sAssocSet (frameGet st i).bindings key v } }

/-- Modelled from the spec: `child()` — a new frame whose `enclosing` is this
frame, by shared reference (spec section 4.1). -/
def child (st : SState) (i : Nat) : Nat × SState :=
  (st.frames.length, { st with frames := st.frames ++ [⟨[], some i⟩] })

/-- Modelled from the spec: `get` — search the current frame then its
ancestors (spec section 4.1).  The depth index bounds the walk; it is
instantiated with the frame count, which the acyclic parent links (every
frame's parent is older than the frame) can never exhaust. -/
def lookupGo : Nat → SState → Nat → String → Option SObj
  | 0, _, _, _ => none
  | d + 1, st, i, key =>
      match sAssocGet (frameGet st i).bindings key with
      | some v => some v
      | none =>
          match (frameGet st i).enclosing with
          | none => none
          | some j => lookupGo d st j key

/-- Lexical lookup from frame `i`. -/
def lookupV (st : SState) (i : Nat) (key : String) : Option SObj :=
  lookupGo (st.frames.length + 1) st i key

/-- Modelled from the spec: `assign` — overwrite at the nearest frame that
already binds the name, `none` (UndefinedVariable) otherwise (spec
section 4.1). -/
def assignGo : Nat → SState → Nat → String → SObj → Option SState
  | 0, _, _, _, _ => none
  | d + 1, st, i, key, v =>
      if (sAssocGet (frameGet st i).bindings key).isSome then some (define st i key v)
      else
        match (frameGet st i).enclosing with
        | none => none
        | some j => assignGo d st j key v

/-- Assignment resolving from frame `i`. -/
def assignV (st : SState) (i : Nat) (key : String) (v : SObj) : Option SState :=
  assignGo (st.frames.length + 1) st i key v

/-- Modelled from the spec: the return signal (spec section 4.3) — `Normal`
or `Returning` with the optional returned value. -/
inductive Outcome where
  | normal
  | returning (v : Option SObj)

/-- Truthiness, as in the source-side evaluator. -/
def truthyS : SObj → Bool
  | .nil => false
  | .bool b => b
  | _ => true

/-- Modelled from the spec: the print rendering of section 6, with callables
rendered `"<native fn>"` and `"<fn NAME>"` exactly as the spec's words give
them. -/
def renderS : SObj → String
  | .nil => "nil"
  | .bool true => "true"
  | .bool false => "false"
  | .num n => toString n
  | .str s => s
  | .native => "<native fn>"
  | .fnV name _ _ _ => "<fn " ++ name ++ ">"

/-- Modelled from the spec: binary operator semantics (spec section 4.3). -/
def sBinOpEval : BinOp → SObj → SObj → Except RuntimeErr SObj
  | .plus, .num a, .num b => .ok (.num (a + b))
  | .plus, .str a, .str b => .ok (.str (a ++ b))
  | .minus, .num a, .num b => .ok (.num (a - b))
  | .greater, .num a, .num b => .ok (.bool (decide (b < a)))
  | _, _, _ => .error .typeMismatch

/-- Modelled from the spec: unary operator semantics (spec section 4.3). -/
def sUnOpEval : UnOp → SObj → Except RuntimeErr SObj
  | .neg, .num a => .ok (.num (-a))
  | .neg, _ => .error .typeMismatch
  | .bang, o => .ok (.bool (!truthyS o))

/-- The declared parameter count: absence of a parameter list is arity 0
(spec section 4.2). -/
def arityOf : Option (List Token) → Nat
  | none => 0
  | some l => l.length

/-- Modelled from the spec: bind each parameter name to the corresponding
argument Value in the fresh call frame (spec section 4.2). -/
def bindSeq : List Token → List SObj → Nat → SState → SState
  | [], _, _, st => st
  | .identifier p :: ps, a :: as, fid, st => bindSeq ps as fid (define st fid p a)
  | .other :: ps, _ :: as, fid, st => bindSeq ps as fid st
  | _ :: _, [], _, st => st

mutual

/-- Modelled from the spec: expression evaluation (spec section 4.3). -/
def sEvalExpr : Nat → Expr → Nat → SState → Except RuntimeErr (SObj × SState)
  | 0, _, _, _ => .error .fuel
  | fuel + 1, e, env, st =>
    match e with
    | .lit .nil => .ok (.nil, st)
    | .lit (.bool b) => .ok (.bool b, st)
    | .lit (.num n) => .ok (.num n, st)
    | .lit (.str s) => .ok (.str s, st)
    | .var name =>
        match lookupV st env name with
        | some v => .ok (v, st)
        | none => .error (.undefinedVariable name)
    | .assign name value => do
        let (v, st1) ← sEvalExpr fuel value env st
        match assignV st1 env name v with
        | some st2 => .ok (v, st2)
        | none => .error (.undefinedVariable name)
    | .binary op lhs rhs => do
        let (a, st1) ← sEvalExpr fuel lhs env st
        let (b, st2) ← sEvalExpr fuel rhs env st1
        let v ← sBinOpEval op a b
        .ok (v, st2)
    | .unary op operand => do
        let (a, st1) ← sEvalExpr fuel operand env st
        let v ← sUnOpEval op a
        .ok (v, st1)
    | .grouping inner => sEvalExpr fuel inner env st
    | .call callee args => do
        let (c, st1) ← sEvalExpr fuel callee env st
        let (vals, st2) ← sEvalArgs fuel args env st1
        match c with
        | .native =>
            if vals.length = 0 then .ok (.num st2.now, st2)
            else .error (.arityMismatch 0 vals.length)
        | .fnV _ parameters body closure => do
            let (r, st3) ← sCallFn fuel parameters body closure vals st2
            match r with
            | some v => .ok (v, st3)
            | none => .ok (.nil, st3)
        | _ => .error .notCallable
termination_by structural fuel e env st => fuel

/-- Modelled from the spec: left-to-right argument evaluation. -/
def sEvalArgs : Nat → List Expr → Nat → SState → Except RuntimeErr (List SObj × SState)
  | 0, _, _, _ => .error .fuel
  | fuel + 1, es, env, st =>
    match es with
    | [] => .ok ([], st)
    | e :: rest => do
        let (v, st1) ← sEvalExpr fuel e env st
        let (vs, st2) ← sEvalArgs fuel rest env st1
        .ok (v :: vs, st2)
termination_by structural fuel es env st => fuel

/-- Modelled from the spec: user-function invocation (spec section 4.2) —
argument count must equal the arity, else `ArityMismatch` and the body does
not run; a fresh frame is linked to the captured scope itself (shared, not
copied); the body executes inside it; a `Returning` outcome becomes the
call's result, `Normal` completion means no value. -/
def sCallFn : Nat → Option (List Token) → Stmt → Nat → List SObj → SState →
    Except RuntimeErr (Option SObj × SState)
  | 0, _, _, _, _, _ => .error .fuel
  | fuel + 1, parameters, body, closure, args, st =>
    if args.length = arityOf parameters then
      let (fid, st1) := child st closure
      let st2 := bindSeq (parameters.getD []) args fid st1
      let stmts := match body with
        | .block ss => ss
        | other => [other]
      do
        let (out, st3) ← sExecStmts fuel stmts fid st2
        match out with
        | .normal => .ok (none, st3)
        | .returning v => .ok (v, st3)
    else .error (.arityMismatch (arityOf parameters) args.length)
termination_by structural fuel ps body closure args st => fuel

/-- Modelled from the spec: statement execution reporting an explicit
`Outcome` (spec section 4.3). -/
def sExecStmt : Nat → Stmt → Nat → SState → Except RuntimeErr (Outcome × SState)
  | 0, _, _, _ => .error .fuel
  | fuel + 1, s, env, st =>
    match s with
    | .expression e => do
        let (_, st1) ← sEvalExpr fuel e env st
        .ok (.normal, st1)
    | .print e => do
        let (v, st1) ← sEvalExpr fuel e env st
        .ok (.normal, { st1 with output := st1.output ++ [renderS v] })
    | .varDecl name init => do
        let (v, st1) ←
          match init with
          | none => .ok (SObj.nil, st)
          | some e => sEvalExpr fuel e env st
        .ok (.normal, define st1 env name v)
    | .block stmts =>
        let (fid, st1) := child st env
        sExecStmts fuel stmts fid st1
    | .ifStmt cond thenB elseB => do
        let (c, st1) ← sEvalExpr fuel cond env st
        if truthyS c then sExecStmt fuel thenB env st1
        else
          match elseB with
          | none => .ok (.normal, st1)
          | some e => sExecStmt fuel e env st1
    | .whileStmt cond body => do
        let (c, st1) ← sEvalExpr fuel cond env st
        if truthyS c then do
          let (out, st2) ← sExecStmt fuel body env st1
          match out with
          | .returning v => .ok (.returning v, st2)
          | .normal => sExecStmt fuel (.whileStmt cond body) env st2
        else .ok (.normal, st1)
    | .function name parameters body =>
        .ok (.normal, define st env name (.fnV name parameters body env))
    | .returnStmt value =>
        match value with
        | none => .ok (.returning none, st)
        | some e => do
            let (v, st1) ← sEvalExpr fuel e env st
            .ok (.returning (some v), st1)
termination_by structural fuel s env st => fuel

/-- Modelled from the spec: statement-list execution, stopping and
re-reporting the moment a child statement reports `Returning` (spec
section 4.3). -/
def sExecStmts : Nat → List Stmt → Nat → SState → Except RuntimeErr (Outcome × SState)
  | 0, _, _, _ => .error .fuel
  | fuel + 1, stmts, env, st =>
    match stmts with
    | [] => .ok (.normal, st)
    | s :: rest => do
        let (out, st1) ← sExecStmt fuel s env st
        match out with
        | .returning v => .ok (.returning v, st1)
        | .normal => sExecStmts fuel rest env st1
termination_by structural fuel stmts env st => fuel

end

/-- Modelled from the spec: the initial state — a single globals frame. -/
def sInitState : SState := { frames := [⟨[], none⟩], output := [], now := 0 }

/-- Modelled from the spec: run a top-level program in the globals frame and
report the produced standard output. -/
def runRefOutput (prog : List Stmt) (fuel : Nat) : Except RuntimeErr (List String) :=
  (sExecStmts fuel prog 0 sInitState).map (fun p => p.2.output)

end LoxRef




namespace Progs

def bobS1 : Lox.Stmt :=
  (.varDecl "d" (some (.lit (.num 4))))

def bobS2 : Lox.Stmt :=
  (.function "bob" (some []) (.block [(.print (.var "d")), (.expression (.assign "d" (.lit (.num 5)))), (.print (.var "d"))]))

def bobS3 : Lox.Stmt :=
  (.expression (.call (.var "bob") []))

def bobS4 : Lox.Stmt :=
  (.print (.var "d"))

def bobProg : List Lox.Stmt := [bobS1, bobS2, bobS3, bobS4]

def bobL1 : Lox.InterpState :=
  ⟨[[("d", (.l (.num 4)))]],
   none, [], 0⟩

def bobL2 : Lox.InterpState :=
  ⟨[[("d", (.l (.num 4))), ("bob", (.function ⟨bobS2, (.mk 0 none)⟩))]],
   none, [], 0⟩

def bobL3 : Lox.InterpState :=
  ⟨[[("d", (.l (.num 5))), ("bob", (.function ⟨bobS2, (.mk 0 none)⟩))],
     [],
     [("d", (.l (.num 5))), ("bob", (.function ⟨bobS2, (.mk 0 none)⟩))]],
   none, ["4", "5"], 0⟩

def bobL4 : Lox.InterpState :=
  ⟨[[("d", (.l (.num 5))), ("bob", (.function ⟨bobS2, (.mk 0 none)⟩))],
     [],
     [("d", (.l (.num 5))), ("bob", (.function ⟨bobS2, (.mk 0 none)⟩))]],
   none, ["4", "5", "5"], 0⟩

def counterS1 : Lox.Stmt :=
  (.function "makeCounter" (some []) (.block [(.varDecl "i" (some (.lit (.num 0)))), (.function "count" (some []) (.block [(.expression (.assign "i" (.binary .plus (.var "i") (.lit (.num 1))))), (.print (.var "i"))])), (.returnStmt (some (.var "count")))]))

def counterS2 : Lox.Stmt :=
  (.varDecl "counter" (some (.call (.var "makeCounter") [])))

def counterS3 : Lox.Stmt :=
  (.expression (.call (.var "counter") []))

def counterS4 : Lox.Stmt :=
  (.expression (.call (.var "counter") []))

def counterProg : List Lox.Stmt := [counterS1, counterS2, counterS3, counterS4]

def counterL1 : Lox.InterpState :=
  ⟨[[("makeCounter", (.function ⟨counterS1, (.mk 0 none)⟩))]],
   none, [], 0⟩

def counterL2 : Lox.InterpState :=
  ⟨[[("makeCounter", (.function ⟨counterS1, (.mk 0 none)⟩)), ("counter", (.function ⟨(.function "count" (some []) (.block [(.expression (.assign "i" (.binary .plus (.var "i") (.lit (.num 1))))), (.print (.var "i"))])), (.mk 2 none)⟩))],
     [],
     [("makeCounter", (.function ⟨counterS1, (.mk 0 none)⟩)), ("i", (.l (.num 0))), ("count", (.function ⟨(.function "count" (some []) (.block [(.expression (.assign "i" (.binary .plus (.var "i") (.lit (.num 1))))), (.print (.var "i"))])), (.mk 2 none)⟩))]],
   none, [], 0⟩

def counterL3 : Lox.InterpState :=
  ⟨[[("makeCounter", (.function ⟨counterS1, (.mk 0 none)⟩)), ("counter", (.function ⟨(.function "count" (some []) (.block [(.expression (.assign "i" (.binary .plus (.var "i") (.lit (.num 1))))), (.print (.var "i"))])), (.mk 2 none)⟩))],
     [],
     [("makeCounter", (.function ⟨counterS1, (.mk 0 none)⟩)), ("i", (.l (.num 1))), ("count", (.function ⟨(.function "count" (some []) (.block [(.expression (.assign "i" (.binary .plus (.var "i") (.lit (.num 1))))), (.print (.var "i"))])), (.mk 2 none)⟩))],
     [],
     [("makeCounter", (.function ⟨counterS1, (.mk 0 none)⟩)), ("i", (.l (.num 1))), ("count", (.function ⟨(.function "count" (some []) (.block [(.expression (.assign "i" (.binary .plus (.var "i") (.lit (.num 1))))), (.print (.var "i"))])), (.mk 2 none)⟩))]],
   none, ["1"], 0⟩

def counterL4 : Lox.InterpState :=
  ⟨[[("makeCounter", (.function ⟨counterS1, (.mk 0 none)⟩)), ("counter", (.function ⟨(.function "count" (some []) (.block [(.expression (.assign "i" (.binary .plus (.var "i") (.lit (.num 1))))), (.print (.var "i"))])), (.mk 2 none)⟩))],
     [],
     [("makeCounter", (.function ⟨counterS1, (.mk 0 none)⟩)), ("i", (.l (.num 2))), ("count", (.function ⟨(.function "count" (some []) (.block [(.expression (.assign "i" (.binary .plus (.var "i") (.lit (.num 1))))), (.print (.var "i"))])), (.mk 2 none)⟩))],
     [],
     [("makeCounter", (.function ⟨counterS1, (.mk 0 none)⟩)), ("i", (.l (.num 1))), ("count", (.function ⟨(.function "count" (some []) (.block [(.expression (.assign "i" (.binary .plus (.var "i") (.lit (.num 1))))), (.print (.var "i"))])), (.mk 2 none)⟩))],
     [],
     [("makeCounter", (.function ⟨counterS1, (.mk 0 none)⟩)), ("i", (.l (.num 2))), ("count", (.function ⟨(.function "count" (some []) (.block [(.expression (.assign "i" (.binary .plus (.var "i") (.lit (.num 1))))), (.print (.var "i"))])), (.mk 2 none)⟩))]],
   none, ["1", "2"], 0⟩

def twiceS1 : Lox.Stmt :=
  (.varDecl "i" (some (.lit (.num 0))))

def twiceS2 : Lox.Stmt :=
  (.function "inc" (some []) (.block [(.expression (.assign "i" (.binary .plus (.var "i") (.lit (.num 1)))))]))

def twiceS3 : Lox.Stmt :=
  (.function "twice" (some [(.identifier "f")]) (.block [(.expression (.call (.var "f") [])), (.expression (.call (.var "f") []))]))

def twiceS4 : Lox.Stmt :=
  (.expression (.call (.var "twice") [(.var "inc")]))

def twiceS5 : Lox.Stmt :=
  (.print (.var "i"))

def twiceProg : List Lox.Stmt := [twiceS1, twiceS2, twiceS3, twiceS4, twiceS5]

def twiceL1 : Lox.InterpState :=
  ⟨[[("i", (.l (.num 0)))]],
   none, [], 0⟩

def twiceL2 : Lox.InterpState :=
  ⟨[[("i", (.l (.num 0))), ("inc", (.function ⟨twiceS2, (.mk 0 none)⟩))]],
   none, [], 0⟩

def twiceL3 : Lox.InterpState :=
  ⟨[[("i", (.l (.num 0))), ("inc", (.function ⟨twiceS2, (.mk 0 none)⟩)), ("twice", (.function ⟨twiceS3, (.mk 0 none)⟩))]],
   none, [], 0⟩

def twiceL4 : Lox.InterpState :=
  ⟨[[("i", (.l (.num 0))), ("inc", (.function ⟨twiceS2, (.mk 0 none)⟩)), ("twice", (.function ⟨twiceS3, (.mk 0 none)⟩))],
     [],
     [("i", (.l (.num 0))), ("inc", (.function ⟨twiceS2, (.mk 0 none)⟩)), ("twice", (.function ⟨twiceS3, (.mk 0 none)⟩)), ("f", (.function ⟨twiceS2, (.mk 0 none)⟩))],
     [],
     [("i", (.l (.num 1))), ("inc", (.function ⟨twiceS2, (.mk 0 none)⟩)), ("twice", (.function ⟨twiceS3, (.mk 0 none)⟩))],
     [],
     [("i", (.l (.num 2))), ("inc", (.function ⟨twiceS2, (.mk 0 none)⟩)), ("twice", (.function ⟨twiceS3, (.mk 0 none)⟩))]],
   none, [], 0⟩

def twiceL5 : Lox.InterpState :=
  ⟨[[("i", (.l (.num 0))), ("inc", (.function ⟨twiceS2, (.mk 0 none)⟩)), ("twice", (.function ⟨twiceS3, (.mk 0 none)⟩))],
     [],
     [("i", (.l (.num 0))), ("inc", (.function ⟨twiceS2, (.mk 0 none)⟩)), ("twice", (.function ⟨twiceS3, (.mk 0 none)⟩)), ("f", (.function ⟨twiceS2, (.mk 0 none)⟩))],
     [],
     [("i", (.l (.num 1))), ("inc", (.function ⟨twiceS2, (.mk 0 none)⟩)), ("twice", (.function ⟨twiceS3, (.mk 0 none)⟩))],
     [],
     [("i", (.l (.num 2))), ("inc", (.function ⟨twiceS2, (.mk 0 none)⟩)), ("twice", (.function ⟨twiceS3, (.mk 0 none)⟩))]],
   none, ["0"], 0⟩

def countrS1 : Lox.Stmt :=
  (.function "count" (some [(.identifier "n")]) (.block [(.ifStmt (.binary .greater (.var "n") (.lit (.num 1))) (.expression (.call (.var "count") [(.binary .minus (.var "n") (.lit (.num 1)))])) none), (.print (.var "n"))]))

def countrS2 : Lox.Stmt :=
  (.expression (.call (.var "count") [(.lit (.num 3))]))

def countrProg : List Lox.Stmt := [countrS1, countrS2]

def countrL1 : Lox.InterpState :=
  ⟨[[("count", (.function ⟨countrS1, (.mk 0 none)⟩))]],
   none, [], 0⟩

def countrL2 : Lox.InterpState :=
  ⟨[[("count", (.function ⟨countrS1, (.mk 0 none)⟩))],
     [],
     [("count", (.function ⟨countrS1, (.mk 0 none)⟩)), ("n", (.l (.num 3)))],
     [],
     [("count", (.function ⟨countrS1, (.mk 0 none)⟩)), ("n", (.l (.num 2)))],
     [],
     [("count", (.function ⟨countrS1, (.mk 0 none)⟩)), ("n", (.l (.num 1)))]],
   none, ["1", "2", "3"], 0⟩

def totalS1 : Lox.Stmt :=
  (.varDecl "total" (some (.lit (.num 0))))

def totalS2 : Lox.Stmt :=
  (.function "count" (some [(.identifier "n")]) (.block [(.expression (.assign "total" (.binary .plus (.var "total") (.var "n")))), (.ifStmt (.binary .greater (.var "n") (.lit (.num 1))) (.expression (.call (.var "count") [(.binary .minus (.var "n") (.lit (.num 1)))])) none)]))

def totalS3 : Lox.Stmt :=
  (.expression (.call (.var "count") [(.lit (.num 2))]))

def totalS4 : Lox.Stmt :=
  (.print (.var "total"))

def totalProg : List Lox.Stmt := [totalS1, totalS2, totalS3, totalS4]

def totalL1 : Lox.InterpState :=
  ⟨[[("total", (.l (.num 0)))]],
   none, [], 0⟩

def totalL2 : Lox.InterpState :=
  ⟨[[("total", (.l (.num 0))), ("count", (.function ⟨totalS2, (.mk 0 none)⟩))]],
   none, [], 0⟩

def totalL3 : Lox.InterpState :=
  ⟨[[("total", (.l (.num 2))), ("count", (.function ⟨totalS2, (.mk 0 none)⟩))],
     [],
     [("total", (.l (.num 2))), ("count", (.function ⟨totalS2, (.mk 0 none)⟩)), ("n", (.l (.num 2)))],
     [],
     [("total", (.l (.num 1))), ("count", (.function ⟨totalS2, (.mk 0 none)⟩)), ("n", (.l (.num 1)))]],
   none, [], 0⟩

def totalL4 : Lox.InterpState :=
  ⟨[[("total", (.l (.num 2))), ("count", (.function ⟨totalS2, (.mk 0 none)⟩))],
     [],
     [("total", (.l (.num 2))), ("count", (.function ⟨totalS2, (.mk 0 none)⟩)), ("n", (.l (.num 2)))],
     [],
     [("total", (.l (.num 1))), ("count", (.function ⟨totalS2, (.mk 0 none)⟩)), ("n", (.l (.num 1)))]],
   none, ["2"], 0⟩

def nestedS1 : Lox.Stmt :=
  (.varDecl "i" (some (.lit (.num 0))))

def nestedS2 : Lox.Stmt :=
  (.function "a" (some []) (.block [(.expression (.assign "i" (.lit (.num 1))))]))

def nestedS3 : Lox.Stmt :=
  (.function "b" (some []) (.block [(.expression (.call (.var "a") [])), (.print (.var "i"))]))

def nestedS4 : Lox.Stmt :=
  (.expression (.call (.var "b") []))

def nestedS5 : Lox.Stmt :=
  (.print (.var "i"))

def nestedProg : List Lox.Stmt := [nestedS1, nestedS2, nestedS3, nestedS4, nestedS5]

def nestedL1 : Lox.InterpState :=
  ⟨[[("i", (.l (.num 0)))]],
   none, [], 0⟩

def nestedL2 : Lox.InterpState :=
  ⟨[[("i", (.l (.num 0))), ("a", (.function ⟨nestedS2, (.mk 0 none)⟩))]],
   none, [], 0⟩

def nestedL3 : Lox.InterpState :=
  ⟨[[("i", (.l (.num 0))), ("a", (.function ⟨nestedS2, (.mk 0 none)⟩)), ("b", (.function ⟨nestedS3, (.mk 0 none)⟩))]],
   none, [], 0⟩

def nestedL4 : Lox.InterpState :=
  ⟨[[("i", (.l (.num 0))), ("a", (.function ⟨nestedS2, (.mk 0 none)⟩)), ("b", (.function ⟨nestedS3, (.mk 0 none)⟩))],
     [],
     [("i", (.l (.num 0))), ("a", (.function ⟨nestedS2, (.mk 0 none)⟩)), ("b", (.function ⟨nestedS3, (.mk 0 none)⟩))],
     [],
     [("i", (.l (.num 1))), ("a", (.function ⟨nestedS2, (.mk 0 none)⟩)), ("b", (.function ⟨nestedS3, (.mk 0 none)⟩))]],
   none, ["0"], 0⟩

def nestedL5 : Lox.InterpState :=
  ⟨[[("i", (.l (.num 0))), ("a", (.function ⟨nestedS2, (.mk 0 none)⟩)), ("b", (.function ⟨nestedS3, (.mk 0 none)⟩))],
     [],
     [("i", (.l (.num 0))), ("a", (.function ⟨nestedS2, (.mk 0 none)⟩)), ("b", (.function ⟨nestedS3, (.mk 0 none)⟩))],
     [],
     [("i", (.l (.num 1))), ("a", (.function ⟨nestedS2, (.mk 0 none)⟩)), ("b", (.function ⟨nestedS3, (.mk 0 none)⟩))]],
   none, ["0", "0"], 0⟩

def twiceB2 : Lox.Stmt :=
  (.block [(.expression (.assign "i" (.binary .plus (.var "i") (.lit (.num 1)))))])

def twiceB3 : Lox.Stmt :=
  (.block [(.expression (.call (.var "f") [])), (.expression (.call (.var "f") []))])

def twiceRL1 : LoxRef.SState :=
  ⟨[⟨[("i", (.num 0))], none⟩],
   [], 0⟩

def twiceRL2 : LoxRef.SState :=
  ⟨[⟨[("i", (.num 0)), ("inc", (.fnV "inc" (some []) twiceB2 0))], none⟩],
   [], 0⟩

def twiceRL3 : LoxRef.SState :=
  ⟨[⟨[("i", (.num 0)), ("inc", (.fnV "inc" (some []) twiceB2 0)), ("twice", (.fnV "twice" (some [(.identifier "f")]) twiceB3 0))], none⟩],
   [], 0⟩

def twiceRL4 : LoxRef.SState :=
  ⟨[⟨[("i", (.num 2)), ("inc", (.fnV "inc" (some []) twiceB2 0)), ("twice", (.fnV "twice" (some [(.identifier "f")]) twiceB3 0))], none⟩,
     ⟨[("f", (.fnV "inc" (some []) twiceB2 0))], (some 0)⟩,
     ⟨[], (some 0)⟩,
     ⟨[], (some 0)⟩],
   [], 0⟩

def twiceRL5 : LoxRef.SState :=
  ⟨[⟨[("i", (.num 2)), ("inc", (.fnV "inc" (some []) twiceB2 0)), ("twice", (.fnV "twice" (some [(.identifier "f")]) twiceB3 0))], none⟩,
     ⟨[("f", (.fnV "inc" (some []) twiceB2 0))], (some 0)⟩,
     ⟨[], (some 0)⟩,
     ⟨[], (some 0)⟩],
   ["2"], 0⟩

def totalB2 : Lox.Stmt :=
  (.block [(.expression (.assign "total" (.binary .plus (.var "total") (.var "n")))), (.ifStmt (.binary .greater (.var "n") (.lit (.num 1))) (.expression (.call (.var "count") [(.binary .minus (.var "n") (.lit (.num 1)))])) none)])

def totalRL1 : LoxRef.SState :=
  ⟨[⟨[("total", (.num 0))], none⟩],
   [], 0⟩

def totalRL2 : LoxRef.SState :=
  ⟨[⟨[("total", (.num 0)), ("count", (.fnV "count" (some [(.identifier "n")]) totalB2 0))], none⟩],
   [], 0⟩

def totalRL3 : LoxRef.SState :=
  ⟨[⟨[("total", (.num 3)), ("count", (.fnV "count" (some [(.identifier "n")]) totalB2 0))], none⟩,
     ⟨[("n", (.num 2))], (some 0)⟩,
     ⟨[("n", (.num 1))], (some 0)⟩],
   [], 0⟩

def totalRL4 : LoxRef.SState :=
  ⟨[⟨[("total", (.num 3)), ("count", (.fnV "count" (some [(.identifier "n")]) totalB2 0))], none⟩,
     ⟨[("n", (.num 2))], (some 0)⟩,
     ⟨[("n", (.num 1))], (some 0)⟩],
   ["3"], 0⟩

def nestedB2 : Lox.Stmt :=
  (.block [(.expression (.assign "i" (.lit (.num 1))))])

def nestedB3 : Lox.Stmt :=
  (.block [(.expression (.call (.var "a") [])), (.print (.var "i"))])

def nestedRL1 : LoxRef.SState :=
  ⟨[⟨[("i", (.num 0))], none⟩],
   [], 0⟩

def nestedRL2 : LoxRef.SState :=
  ⟨[⟨[("i", (.num 0)), ("a", (.fnV "a" (some []) nestedB2 0))], none⟩],
   [], 0⟩

def nestedRL3 : LoxRef.SState :=
  ⟨[⟨[("i", (.num 0)), ("a", (.fnV "a" (some []) nestedB2 0)), ("b", (.fnV "b" (some []) nestedB3 0))], none⟩],
   [], 0⟩

def nestedRL4 : LoxRef.SState :=
  ⟨[⟨[("i", (.num 1)), ("a", (.fnV "a" (some []) nestedB2 0)), ("b", (.fnV "b" (some []) nestedB3 0))], none⟩,
     ⟨[], (some 0)⟩,
     ⟨[], (some 0)⟩],
   ["1"], 0⟩

def nestedRL5 : LoxRef.SState :=
  ⟨[⟨[("i", (.num 1)), ("a", (.fnV "a" (some []) nestedB2 0)), ("b", (.fnV "b" (some []) nestedB3 0))], none⟩,
     ⟨[], (some 0)⟩,
     ⟨[], (some 0)⟩],
   ["1", "1"], 0⟩

def counterB1 : Lox.Stmt :=
  (.block [(.varDecl "i" (some (.lit (.num 0)))), (.function "count" (some []) (.block [(.expression (.assign "i" (.binary .plus (.var "i") (.lit (.num 1))))), (.print (.var "i"))])), (.returnStmt (some (.var "count")))])

def counterRL1 : LoxRef.SState :=
  ⟨[⟨[("makeCounter", (.fnV "makeCounter" (some []) counterB1 0))], none⟩],
   [], 0⟩

def counterRL2 : LoxRef.SState :=
  ⟨[⟨[("makeCounter", (.fnV "makeCounter" (some []) counterB1 0)), ("counter", (.fnV "count" (some []) (.block [(.expression (.assign "i" (.binary .plus (.var "i") (.lit (.num 1))))), (.print (.var "i"))]) 1))], none⟩,
     ⟨[("i", (.num 0)), ("count", (.fnV "count" (some []) (.block [(.expression (.assign "i" (.binary .plus (.var "i") (.lit (.num 1))))), (.print (.var "i"))]) 1))], (some 0)⟩],
   [], 0⟩

def counterRL3 : LoxRef.SState :=
  ⟨[⟨[("makeCounter", (.fnV "makeCounter" (some []) counterB1 0)), ("counter", (.fnV "count" (some []) (.block [(.expression (.assign "i" (.binary .plus (.var "i") (.lit (.num 1))))), (.print (.var "i"))]) 1))], none⟩,
     ⟨[("i", (.num 1)), ("count", (.fnV "count" (some []) (.block [(.expression (.assign "i" (.binary .plus (.var "i") (.lit (.num 1))))), (.print (.var "i"))]) 1))], (some 0)⟩,
     ⟨[], (some 1)⟩],
   ["1"], 0⟩

def counterRL4 : LoxRef.SState :=
  ⟨[⟨[("makeCounter", (.fnV "makeCounter" (some []) counterB1 0)), ("counter", (.fnV "count" (some []) (.block [(.expression (.assign "i" (.binary .plus (.var "i") (.lit (.num 1))))), (.print (.var "i"))]) 1))], none⟩,
     ⟨[("i", (.num 2)), ("count", (.fnV "count" (some []) (.block [(.expression (.assign "i" (.binary .plus (.var "i") (.lit (.num 1))))), (.print (.var "i"))]) 1))], (some 0)⟩,
     ⟨[], (some 1)⟩,
     ⟨[], (some 1)⟩],
   ["1", "2"], 0⟩

def countrB1 : Lox.Stmt :=
  (.block [(.ifStmt (.binary .greater (.var "n") (.lit (.num 1))) (.expression (.call (.var "count") [(.binary .minus (.var "n") (.lit (.num 1)))])) none), (.print (.var "n"))])

def countrRL1 : LoxRef.SState :=
  ⟨[⟨[("count", (.fnV "count" (some [(.identifier "n")]) countrB1 0))], none⟩],
   [], 0⟩

def countrRL2 : LoxRef.SState :=
  ⟨[⟨[("count", (.fnV "count" (some [(.identifier "n")]) countrB1 0))], none⟩,
     ⟨[("n", (.num 3))], (some 0)⟩,
     ⟨[("n", (.num 2))], (some 0)⟩,
     ⟨[("n", (.num 1))], (some 0)⟩],
   ["1", "2", "3"], 0⟩

def bobB2 : Lox.Stmt :=
  (.block [(.print (.var "d")), (.expression (.assign "d" (.lit (.num 5)))), (.print (.var "d"))])

def bobRL1 : LoxRef.SState :=
  ⟨[⟨[("d", (.num 4))], none⟩],
   [], 0⟩

def bobRL2 : LoxRef.SState :=
  ⟨[⟨[("d", (.num 4)), ("bob", (.fnV "bob" (some []) bobB2 0))], none⟩],
   [], 0⟩

def bobRL3 : LoxRef.SState :=
  ⟨[⟨[("d", (.num 5)), ("bob", (.fnV "bob" (some []) bobB2 0))], none⟩,
     ⟨[], (some 0)⟩],
   ["4", "5"], 0⟩

def bobRL4 : LoxRef.SState :=
  ⟨[⟨[("d", (.num 5)), ("bob", (.fnV "bob" (some []) bobB2 0))], none⟩,
     ⟨[], (some 0)⟩],
   ["4", "5", "5"], 0⟩

/-- A one-parameter user function `fun f(x){ print x; }` over the globals
frame, used to exercise the argument-count behaviour of `Function::call`. -/
def oneParamFn : Lox.Function :=
  ⟨.function "f" (some [Lox.Token.identifier "x"]) (.block [.print (.var "x")]),
   Lox.globals⟩

end Progs

/-!
Helper lemmas for staging concrete program runs: a run is unrolled one
top-level statement at a time, each step checked by reduction against an
explicitly given intermediate state.
-/

namespace Lox

/-- Peeling one statement off a running statement list: once the statement's
effect is known and no return is pending, execution continues with the rest
of the list. -/
theorem execStmts_cons (fuel : Nat) (s : Stmt) (rest : List Stmt) (env : SymbolTable)
    (st st1 : InterpState) (hret : st.ret = none)
    (h : execStmt fuel s env st = .ok st1) :
    execStmts (fuel + 1) (s :: rest) env st = execStmts fuel rest env st1 := by
  simp [execStmts, hret, h, Except.bind]
  rfl

/-- An empty statement list leaves the state unchanged. -/
theorem execStmts_nil (fuel : Nat) (env : SymbolTable) (st : InterpState) :
    execStmts (fuel + 1) [] env st = .ok st := by
  simp [execStmts]

/-- The parameter-binding loop of `Function::call` panics (`hostAbort`) as
soon as it reaches a parameter index with no corresponding argument: with
identifier-only parameters, starting index within the argument count, and
fewer arguments than `index + parameters`, the loop must run off the end of
the argument vector. -/
theorem bindParams_short (ps : List Token) : ∀ (i : Nat) (st : InterpState),
    ∀ (args : List Obj) (recE env : SymbolTable),
    allIdents ps = true → i ≤ args.length → args.length < i + ps.length →
    bindParams ps i args recE env st = .error .hostAbort := by
  induction ps with
  | nil =>
      intro i st args recE env _ hle hlt
      simp at hlt
      omega
  | cons p rest ih =>
      intro i st args recE env hid hle hlt
      cases p with
      | other => simp [allIdents] at hid
      | identifier name =>
          have hid' : allIdents rest = true := by simpa [allIdents] using hid
          cases h : args[i]? with
          | none => simp [bindParams, h]
          | some a =>
              have hlt2 : i < args.length := by
                rcases List.getElem?_eq_some_iff.mp h with ⟨hn, -⟩
                exact hn
              simp only [bindParams, List.get?_eq_getElem?, h]
              apply ih
              · exact hid'
              · omega
              · simp at hlt
                omega

/-- The parameter-binding loop never reads an argument at an index at or
beyond the parameter count: truncating the argument vector to the parameter
count leaves the loop's behaviour unchanged. -/
theorem bindParams_take (ps : List Token) : ∀ (i : Nat) (st : InterpState),
    ∀ (args : List Obj) (n : Nat) (recE env : SymbolTable),
    i + ps.length ≤ n → n ≤ args.length →
    bindParams ps i args recE env st = bindParams ps i (args.take n) recE env st := by
  induction ps with
  | nil => intro i st args n recE env _ _; rfl
  | cons p rest ih =>
      intro i st args n recE env h1 h2
      have hi : i < n := by simp at h1; omega
      have hget : (args.take n)[i]? = args[i]? := List.getElem?_take_of_lt hi
      cases p with
      | identifier name =>
          simp only [bindParams, List.get?_eq_getElem?, hget]
          cases h : args[i]? with
          | none => rfl
          | some a =>
              apply ih
              · simp at h1
                omega
              · exact h2
      | other =>
          simp only [bindParams]
          apply ih
          · simp at h1
            omega
          · exact h2

/-- The parameter-binding loop has exactly two outcomes: it succeeds, or it
host-panics at a missing argument — `hostAbort` is the only error it can
produce. -/
theorem bindParams_cases (ps : List Token) : ∀ (i : Nat) (args : List Obj)
    (recE env : SymbolTable) (st : InterpState),
    bindParams ps i args recE env st = .error .hostAbort ∨
    ∃ st2, bindParams ps i args recE env st = .ok st2 := by
  induction ps with
  | nil => intro i args recE env st; exact .inr ⟨st, rfl⟩
  | cons p rest ih =>
      intro i args recE env st
      cases p with
      | identifier name =>
          cases h : args[i]? with
          | none =>
              left
              simp [bindParams, h]
          | some a =>
              simpa [bindParams, List.get?_eq_getElem?, h] using
                ih (i + 1) args recE env
                  (env.define name a
                    (if env.existsName st name then recE.define name a st else st))
      | other =>
          simp only [bindParams]
          exact ih (i + 1) args recE env st

end Lox

namespace LoxRef

/-- Peeling one normally-completing statement off a running statement
list. -/
theorem sExecStmts_cons (fuel : Nat) (s : Lox.Stmt) (rest : List Lox.Stmt) (env : Nat)
    (st st1 : SState) (h : sExecStmt fuel s env st = .ok (.normal, st1)) :
    sExecStmts (fuel + 1) (s :: rest) env st = sExecStmts fuel rest env st1 := by
  simp [sExecStmts, h, Except.bind]
  rfl

/-- An empty statement list completes normally with the state unchanged. -/
theorem sExecStmts_nil (fuel : Nat) (env : Nat) (st : SState) :
    sExecStmts (fuel + 1) [] env st = .ok (.normal, st) := by
  simp [sExecStmts]

end LoxRef

namespace Progs

theorem bob_run : Lox.runOutput bobProg 20 = .ok ["4", "5", "5"] := by
  have e1 : Lox.execStmt 19 bobS1 Lox.globals Lox.initState = .ok bobL1 := by rfl
  have e2 : Lox.execStmt 18 bobS2 Lox.globals bobL1 = .ok bobL2 := by rfl
  have e3 : Lox.execStmt 17 bobS3 Lox.globals bobL2 = .ok bobL3 := by rfl
  have e4 : Lox.execStmt 16 bobS4 Lox.globals bobL3 = .ok bobL4 := by rfl
  have h1 : Lox.execStmts 20 bobProg Lox.globals Lox.initState
      = Lox.execStmts 19 [bobS2, bobS3, bobS4] Lox.globals bobL1 :=
    Lox.execStmts_cons 19 bobS1 [bobS2, bobS3, bobS4] Lox.globals Lox.initState bobL1 rfl e1
  have h2 : Lox.execStmts 19 [bobS2, bobS3, bobS4] Lox.globals bobL1
      = Lox.execStmts 18 [bobS3, bobS4] Lox.globals bobL2 :=
    Lox.execStmts_cons 18 bobS2 [bobS3, bobS4] Lox.globals bobL1 bobL2 rfl e2
  have h3 : Lox.execStmts 18 [bobS3, bobS4] Lox.globals bobL2
      = Lox.execStmts 17 [bobS4] Lox.globals bobL3 :=
    Lox.execStmts_cons 17 bobS3 [bobS4] Lox.globals bobL2 bobL3 rfl e3
  have h4 : Lox.execStmts 17 [bobS4] Lox.globals bobL3
      = Lox.execStmts 16 [] Lox.globals bobL4 :=
    Lox.execStmts_cons 16 bobS4 [] Lox.globals bobL3 bobL4 rfl e4
  have hend : Lox.execStmts 16 [] Lox.globals bobL4 = .ok bobL4 :=
    Lox.execStmts_nil 15 Lox.globals bobL4
  unfold Lox.runOutput
  rw [h1, h2, h3, h4, hend]
  rfl

theorem counter_run : Lox.runOutput counterProg 20 = .ok ["1", "2"] := by
  have e1 : Lox.execStmt 19 counterS1 Lox.globals Lox.initState = .ok counterL1 := by rfl
  have e2 : Lox.execStmt 18 counterS2 Lox.globals counterL1 = .ok counterL2 := by rfl
  have e3 : Lox.execStmt 17 counterS3 Lox.globals counterL2 = .ok counterL3 := by rfl
  have e4 : Lox.execStmt 16 counterS4 Lox.globals counterL3 = .ok counterL4 := by rfl
  have h1 : Lox.execStmts 20 counterProg Lox.globals Lox.initState
      = Lox.execStmts 19 [counterS2, counterS3, counterS4] Lox.globals counterL1 :=
    Lox.execStmts_cons 19 counterS1 [counterS2, counterS3, counterS4] Lox.globals Lox.initState counterL1 rfl e1
  have h2 : Lox.execStmts 19 [counterS2, counterS3, counterS4] Lox.globals counterL1
      = Lox.execStmts 18 [counterS3, counterS4] Lox.globals counterL2 :=
    Lox.execStmts_cons 18 counterS2 [counterS3, counterS4] Lox.globals counterL1 counterL2 rfl e2
  have h3 : Lox.execStmts 18 [counterS3, counterS4] Lox.globals counterL2
      = Lox.execStmts 17 [counterS4] Lox.globals counterL3 :=
    Lox.execStmts_cons 17 counterS3 [counterS4] Lox.globals counterL2 counterL3 rfl e3
  have h4 : Lox.execStmts 17 [counterS4] Lox.globals counterL3
      = Lox.execStmts 16 [] Lox.globals counterL4 :=
    Lox.execStmts_cons 16 counterS4 [] Lox.globals counterL3 counterL4 rfl e4
  have hend : Lox.execStmts 16 [] Lox.globals counterL4 = .ok counterL4 :=
    Lox.execStmts_nil 15 Lox.globals counterL4
  unfold Lox.runOutput
  rw [h1, h2, h3, h4, hend]
  rfl

theorem twice_run : Lox.runOutput twiceProg 20 = .ok ["0"] := by
  have e1 : Lox.execStmt 19 twiceS1 Lox.globals Lox.initState = .ok twiceL1 := by rfl
  have e2 : Lox.execStmt 18 twiceS2 Lox.globals twiceL1 = .ok twiceL2 := by rfl
  have e3 : Lox.execStmt 17 twiceS3 Lox.globals twiceL2 = .ok twiceL3 := by rfl
  have e4 : Lox.execStmt 16 twiceS4 Lox.globals twiceL3 = .ok twiceL4 := by rfl
  have e5 : Lox.execStmt 15 twiceS5 Lox.globals twiceL4 = .ok twiceL5 := by rfl
  have h1 : Lox.execStmts 20 twiceProg Lox.globals Lox.initState
      = Lox.execStmts 19 [twiceS2, twiceS3, twiceS4, twiceS5] Lox.globals twiceL1 :=
    Lox.execStmts_cons 19 twiceS1 [twiceS2, twiceS3, twiceS4, twiceS5] Lox.globals Lox.initState twiceL1 rfl e1
  have h2 : Lox.execStmts 19 [twiceS2, twiceS3, twiceS4, twiceS5] Lox.globals twiceL1
      = Lox.execStmts 18 [twiceS3, twiceS4, twiceS5] Lox.globals twiceL2 :=
    Lox.execStmts_cons 18 twiceS2 [twiceS3, twiceS4, twiceS5] Lox.globals twiceL1 twiceL2 rfl e2
  have h3 : Lox.execStmts 18 [twiceS3, twiceS4, twiceS5] Lox.globals twiceL2
      = Lox.execStmts 17 [twiceS4, twiceS5] Lox.globals twiceL3 :=
    Lox.execStmts_cons 17 twiceS3 [twiceS4, twiceS5] Lox.globals twiceL2 twiceL3 rfl e3
  have h4 : Lox.execStmts 17 [twiceS4, twiceS5] Lox.globals twiceL3
      = Lox.execStmts 16 [twiceS5] Lox.globals twiceL4 :=
    Lox.execStmts_cons 16 twiceS4 [twiceS5] Lox.globals twiceL3 twiceL4 rfl e4
  have h5 : Lox.execStmts 16 [twiceS5] Lox.globals twiceL4
      = Lox.execStmts 15 [] Lox.globals twiceL5 :=
    Lox.execStmts_cons 15 twiceS5 [] Lox.globals twiceL4 twiceL5 rfl e5
  have hend : Lox.execStmts 15 [] Lox.globals twiceL5 = .ok twiceL5 :=
    Lox.execStmts_nil 14 Lox.globals twiceL5
  unfold Lox.runOutput
  rw [h1, h2, h3, h4, h5, hend]
  rfl

theorem countr_run : Lox.runOutput countrProg 20 = .ok ["1", "2", "3"] := by
  have e1 : Lox.execStmt 19 countrS1 Lox.globals Lox.initState = .ok countrL1 := by rfl
  have e2 : Lox.execStmt 18 countrS2 Lox.globals countrL1 = .ok countrL2 := by rfl
  have h1 : Lox.execStmts 20 countrProg Lox.globals Lox.initState
      = Lox.execStmts 19 [countrS2] Lox.globals countrL1 :=
    Lox.execStmts_cons 19 countrS1 [countrS2] Lox.globals Lox.initState countrL1 rfl e1
  have h2 : Lox.execStmts 19 [countrS2] Lox.globals countrL1
      = Lox.execStmts 18 [] Lox.globals countrL2 :=
    Lox.execStmts_cons 18 countrS2 [] Lox.globals countrL1 countrL2 rfl e2
  have hend : Lox.execStmts 18 [] Lox.globals countrL2 = .ok countrL2 :=
    Lox.execStmts_nil 17 Lox.globals countrL2
  unfold Lox.runOutput
  rw [h1, h2, hend]
  rfl

theorem total_run : Lox.runOutput totalProg 20 = .ok ["2"] := by
  have e1 : Lox.execStmt 19 totalS1 Lox.globals Lox.initState = .ok totalL1 := by rfl
  have e2 : Lox.execStmt 18 totalS2 Lox.globals totalL1 = .ok totalL2 := by rfl
  have e3 : Lox.execStmt 17 totalS3 Lox.globals totalL2 = .ok totalL3 := by rfl
  have e4 : Lox.execStmt 16 totalS4 Lox.globals totalL3 = .ok totalL4 := by rfl
  have h1 : Lox.execStmts 20 totalProg Lox.globals Lox.initState
      = Lox.execStmts 19 [totalS2, totalS3, totalS4] Lox.globals totalL1 :=
    Lox.execStmts_cons 19 totalS1 [totalS2, totalS3, totalS4] Lox.globals Lox.initState totalL1 rfl e1
  have h2 : Lox.execStmts 19 [totalS2, totalS3, totalS4] Lox.globals totalL1
      = Lox.execStmts 18 [totalS3, totalS4] Lox.globals totalL2 :=
    Lox.execStmts_cons 18 totalS2 [totalS3, totalS4] Lox.globals totalL1 totalL2 rfl e2
  have h3 : Lox.execStmts 18 [totalS3, totalS4] Lox.globals totalL2
      = Lox.execStmts 17 [totalS4] Lox.globals totalL3 :=
    Lox.execStmts_cons 17 totalS3 [totalS4] Lox.globals totalL2 totalL3 rfl e3
  have h4 : Lox.execStmts 17 [totalS4] Lox.globals totalL3
      = Lox.execStmts 16 [] Lox.globals totalL4 :=
    Lox.execStmts_cons 16 totalS4 [] Lox.globals totalL3 totalL4 rfl e4
  have hend : Lox.execStmts 16 [] Lox.globals totalL4 = .ok totalL4 :=
    Lox.execStmts_nil 15 Lox.globals totalL4
  unfold Lox.runOutput
  rw [h1, h2, h3, h4, hend]
  rfl

theorem nested_run : Lox.runOutput nestedProg 20 = .ok ["0", "0"] := by
  have e1 : Lox.execStmt 19 nestedS1 Lox.globals Lox.initState = .ok nestedL1 := by rfl
  have e2 : Lox.execStmt 18 nestedS2 Lox.globals nestedL1 = .ok nestedL2 := by rfl
  have e3 : Lox.execStmt 17 nestedS3 Lox.globals nestedL2 = .ok nestedL3 := by rfl
  have e4 : Lox.execStmt 16 nestedS4 Lox.globals nestedL3 = .ok nestedL4 := by rfl
  have e5 : Lox.execStmt 15 nestedS5 Lox.globals nestedL4 = .ok nestedL5 := by rfl
  have h1 : Lox.execStmts 20 nestedProg Lox.globals Lox.initState
      = Lox.execStmts 19 [nestedS2, nestedS3, nestedS4, nestedS5] Lox.globals nestedL1 :=
    Lox.execStmts_cons 19 nestedS1 [nestedS2, nestedS3, nestedS4, nestedS5] Lox.globals Lox.initState nestedL1 rfl e1
  have h2 : Lox.execStmts 19 [nestedS2, nestedS3, nestedS4, nestedS5] Lox.globals nestedL1
      = Lox.execStmts 18 [nestedS3, nestedS4, nestedS5] Lox.globals nestedL2 :=
    Lox.execStmts_cons 18 nestedS2 [nestedS3, nestedS4, nestedS5] Lox.globals nestedL1 nestedL2 rfl e2
  have h3 : Lox.execStmts 18 [nestedS3, nestedS4, nestedS5] Lox.globals nestedL2
      = Lox.execStmts 17 [nestedS4, nestedS5] Lox.globals nestedL3 :=
    Lox.execStmts_cons 17 nestedS3 [nestedS4, nestedS5] Lox.globals nestedL2 nestedL3 rfl e3
  have h4 : Lox.execStmts 17 [nestedS4, nestedS5] Lox.globals nestedL3
      = Lox.execStmts 16 [nestedS5] Lox.globals nestedL4 :=
    Lox.execStmts_cons 16 nestedS4 [nestedS5] Lox.globals nestedL3 nestedL4 rfl e4
  have h5 : Lox.execStmts 16 [nestedS5] Lox.globals nestedL4
      = Lox.execStmts 15 [] Lox.globals nestedL5 :=
    Lox.execStmts_cons 15 nestedS5 [] Lox.globals nestedL4 nestedL5 rfl e5
  have hend : Lox.execStmts 15 [] Lox.globals nestedL5 = .ok nestedL5 :=
    Lox.execStmts_nil 14 Lox.globals nestedL5
  unfold Lox.runOutput
  rw [h1, h2, h3, h4, h5, hend]
  rfl

theorem twice_refRun : LoxRef.runRefOutput twiceProg 20 = .ok ["2"] := by
  have e1 : LoxRef.sExecStmt 19 twiceS1 0 LoxRef.sInitState = .ok (.normal, twiceRL1) := by rfl
  have e2 : LoxRef.sExecStmt 18 twiceS2 0 twiceRL1 = .ok (.normal, twiceRL2) := by rfl
  have e3 : LoxRef.sExecStmt 17 twiceS3 0 twiceRL2 = .ok (.normal, twiceRL3) := by rfl
  have e4 : LoxRef.sExecStmt 16 twiceS4 0 twiceRL3 = .ok (.normal, twiceRL4) := by rfl
  have e5 : LoxRef.sExecStmt 15 twiceS5 0 twiceRL4 = .ok (.normal, twiceRL5) := by rfl
  have h1 : LoxRef.sExecStmts 20 twiceProg 0 LoxRef.sInitState
      = LoxRef.sExecStmts 19 [twiceS2, twiceS3, twiceS4, twiceS5] 0 twiceRL1 :=
    LoxRef.sExecStmts_cons 19 twiceS1 [twiceS2, twiceS3, twiceS4, twiceS5] 0 LoxRef.sInitState twiceRL1 e1
  have h2 : LoxRef.sExecStmts 19 [twiceS2, twiceS3, twiceS4, twiceS5] 0 twiceRL1
      = LoxRef.sExecStmts 18 [twiceS3, twiceS4, twiceS5] 0 twiceRL2 :=
    LoxRef.sExecStmts_cons 18 twiceS2 [twiceS3, twiceS4, twiceS5] 0 twiceRL1 twiceRL2 e2
  have h3 : LoxRef.sExecStmts 18 [twiceS3, twiceS4, twiceS5] 0 twiceRL2
      = LoxRef.sExecStmts 17 [twiceS4, twiceS5] 0 twiceRL3 :=
    LoxRef.sExecStmts_cons 17 twiceS3 [twiceS4, twiceS5] 0 twiceRL2 twiceRL3 e3
  have h4 : LoxRef.sExecStmts 17 [twiceS4, twiceS5] 0 twiceRL3
      = LoxRef.sExecStmts 16 [twiceS5] 0 twiceRL4 :=
    LoxRef.sExecStmts_cons 16 twiceS4 [twiceS5] 0 twiceRL3 twiceRL4 e4
  have h5 : LoxRef.sExecStmts 16 [twiceS5] 0 twiceRL4
      = LoxRef.sExecStmts 15 [] 0 twiceRL5 :=
    LoxRef.sExecStmts_cons 15 twiceS5 [] 0 twiceRL4 twiceRL5 e5
  have hend : LoxRef.sExecStmts 15 [] 0 twiceRL5 = .ok (.normal, twiceRL5) :=
    LoxRef.sExecStmts_nil 14 0 twiceRL5
  unfold LoxRef.runRefOutput
  rw [h1, h2, h3, h4, h5, hend]
  rfl

theorem total_refRun : LoxRef.runRefOutput totalProg 20 = .ok ["3"] := by
  have e1 : LoxRef.sExecStmt 19 totalS1 0 LoxRef.sInitState = .ok (.normal, totalRL1) := by rfl
  have e2 : LoxRef.sExecStmt 18 totalS2 0 totalRL1 = .ok (.normal, totalRL2) := by rfl
  have e3 : LoxRef.sExecStmt 17 totalS3 0 totalRL2 = .ok (.normal, totalRL3) := by rfl
  have e4 : LoxRef.sExecStmt 16 totalS4 0 totalRL3 = .ok (.normal, totalRL4) := by rfl
  have h1 : LoxRef.sExecStmts 20 totalProg 0 LoxRef.sInitState
      = LoxRef.sExecStmts 19 [totalS2, totalS3, totalS4] 0 totalRL1 :=
    LoxRef.sExecStmts_cons 19 totalS1 [totalS2, totalS3, totalS4] 0 LoxRef.sInitState totalRL1 e1
  have h2 : LoxRef.sExecStmts 19 [totalS2, totalS3, totalS4] 0 totalRL1
      = LoxRef.sExecStmts 18 [totalS3, totalS4] 0 totalRL2 :=
    LoxRef.sExecStmts_cons 18 totalS2 [totalS3, totalS4] 0 totalRL1 totalRL2 e2
  have h3 : LoxRef.sExecStmts 18 [totalS3, totalS4] 0 totalRL2
      = LoxRef.sExecStmts 17 [totalS4] 0 totalRL3 :=
    LoxRef.sExecStmts_cons 17 totalS3 [totalS4] 0 totalRL2 totalRL3 e3
  have h4 : LoxRef.sExecStmts 17 [totalS4] 0 totalRL3
      = LoxRef.sExecStmts 16 [] 0 totalRL4 :=
    LoxRef.sExecStmts_cons 16 totalS4 [] 0 totalRL3 totalRL4 e4
  have hend : LoxRef.sExecStmts 16 [] 0 totalRL4 = .ok (.normal, totalRL4) :=
    LoxRef.sExecStmts_nil 15 0 totalRL4
  unfold LoxRef.runRefOutput
  rw [h1, h2, h3, h4, hend]
  rfl

theorem nested_refRun : LoxRef.runRefOutput nestedProg 20 = .ok ["1", "1"] := by
  have e1 : LoxRef.sExecStmt 19 nestedS1 0 LoxRef.sInitState = .ok (.normal, nestedRL1) := by rfl
  have e2 : LoxRef.sExecStmt 18 nestedS2 0 nestedRL1 = .ok (.normal, nestedRL2) := by rfl
  have e3 : LoxRef.sExecStmt 17 nestedS3 0 nestedRL2 = .ok (.normal, nestedRL3) := by rfl
  have e4 : LoxRef.sExecStmt 16 nestedS4 0 nestedRL3 = .ok (.normal, nestedRL4) := by rfl
  have e5 : LoxRef.sExecStmt 15 nestedS5 0 nestedRL4 = .ok (.normal, nestedRL5) := by rfl
  have h1 : LoxRef.sExecStmts 20 nestedProg 0 LoxRef.sInitState
      = LoxRef.sExecStmts 19 [nestedS2, nestedS3, nestedS4, nestedS5] 0 nestedRL1 :=
    LoxRef.sExecStmts_cons 19 nestedS1 [nestedS2, nestedS3, nestedS4, nestedS5] 0 LoxRef.sInitState nestedRL1 e1
  have h2 : LoxRef.sExecStmts 19 [nestedS2, nestedS3, nestedS4, nestedS5] 0 nestedRL1
      = LoxRef.sExecStmts 18 [nestedS3, nestedS4, nestedS5] 0 nestedRL2 :=
    LoxRef.sExecStmts_cons 18 nestedS2 [nestedS3, nestedS4, nestedS5] 0 nestedRL1 nestedRL2 e2
  have h3 : LoxRef.sExecStmts 18 [nestedS3, nestedS4, nestedS5] 0 nestedRL2
      = LoxRef.sExecStmts 17 [nestedS4, nestedS5] 0 nestedRL3 :=
    LoxRef.sExecStmts_cons 17 nestedS3 [nestedS4, nestedS5] 0 nestedRL2 nestedRL3 e3
  have h4 : LoxRef.sExecStmts 17 [nestedS4, nestedS5] 0 nestedRL3
      = LoxRef.sExecStmts 16 [nestedS5] 0 nestedRL4 :=
    LoxRef.sExecStmts_cons 16 nestedS4 [nestedS5] 0 nestedRL3 nestedRL4 e4
  have h5 : LoxRef.sExecStmts 16 [nestedS5] 0 nestedRL4
      = LoxRef.sExecStmts 15 [] 0 nestedRL5 :=
    LoxRef.sExecStmts_cons 15 nestedS5 [] 0 nestedRL4 nestedRL5 e5
  have hend : LoxRef.sExecStmts 15 [] 0 nestedRL5 = .ok (.normal, nestedRL5) :=
    LoxRef.sExecStmts_nil 14 0 nestedRL5
  unfold LoxRef.runRefOutput
  rw [h1, h2, h3, h4, h5, hend]
  rfl

theorem counter_refRun : LoxRef.runRefOutput counterProg 20 = .ok ["1", "2"] := by
  have e1 : LoxRef.sExecStmt 19 counterS1 0 LoxRef.sInitState = .ok (.normal, counterRL1) := by rfl
  have e2 : LoxRef.sExecStmt 18 counterS2 0 counterRL1 = .ok (.normal, counterRL2) := by rfl
  have e3 : LoxRef.sExecStmt 17 counterS3 0 counterRL2 = .ok (.normal, counterRL3) := by rfl
  have e4 : LoxRef.sExecStmt 16 counterS4 0 counterRL3 = .ok (.normal, counterRL4) := by rfl
  have h1 : LoxRef.sExecStmts 20 counterProg 0 LoxRef.sInitState
      = LoxRef.sExecStmts 19 [counterS2, counterS3, counterS4] 0 counterRL1 :=
    LoxRef.sExecStmts_cons 19 counterS1 [counterS2, counterS3, counterS4] 0 LoxRef.sInitState counterRL1 e1
  have h2 : LoxRef.sExecStmts 19 [counterS2, counterS3, counterS4] 0 counterRL1
      = LoxRef.sExecStmts 18 [counterS3, counterS4] 0 counterRL2 :=
    LoxRef.sExecStmts_cons 18 counterS2 [counterS3, counterS4] 0 counterRL1 counterRL2 e2
  have h3 : LoxRef.sExecStmts 18 [counterS3, counterS4] 0 counterRL2
      = LoxRef.sExecStmts 17 [counterS4] 0 counterRL3 :=
    LoxRef.sExecStmts_cons 17 counterS3 [counterS4] 0 counterRL2 counterRL3 e3
  have h4 : LoxRef.sExecStmts 17 [counterS4] 0 counterRL3
      = LoxRef.sExecStmts 16 [] 0 counterRL4 :=
    LoxRef.sExecStmts_cons 16 counterS4 [] 0 counterRL3 counterRL4 e4
  have hend : LoxRef.sExecStmts 16 [] 0 counterRL4 = .ok (.normal, counterRL4) :=
    LoxRef.sExecStmts_nil 15 0 counterRL4
  unfold LoxRef.runRefOutput
  rw [h1, h2, h3, h4, hend]
  rfl

theorem countr_refRun : LoxRef.runRefOutput countrProg 20 = .ok ["1", "2", "3"] := by
  have e1 : LoxRef.sExecStmt 19 countrS1 0 LoxRef.sInitState = .ok (.normal, countrRL1) := by rfl
  have e2 : LoxRef.sExecStmt 18 countrS2 0 countrRL1 = .ok (.normal, countrRL2) := by rfl
  have h1 : LoxRef.sExecStmts 20 countrProg 0 LoxRef.sInitState
      = LoxRef.sExecStmts 19 [countrS2] 0 countrRL1 :=
    LoxRef.sExecStmts_cons 19 countrS1 [countrS2] 0 LoxRef.sInitState countrRL1 e1
  have h2 : LoxRef.sExecStmts 19 [countrS2] 0 countrRL1
      = LoxRef.sExecStmts 18 [] 0 countrRL2 :=
    LoxRef.sExecStmts_cons 18 countrS2 [] 0 countrRL1 countrRL2 e2
  have hend : LoxRef.sExecStmts 18 [] 0 countrRL2 = .ok (.normal, countrRL2) :=
    LoxRef.sExecStmts_nil 17 0 countrRL2
  unfold LoxRef.runRefOutput
  rw [h1, h2, hend]
  rfl

theorem bob_refRun : LoxRef.runRefOutput bobProg 20 = .ok ["4", "5", "5"] := by
  have e1 : LoxRef.sExecStmt 19 bobS1 0 LoxRef.sInitState = .ok (.normal, bobRL1) := by rfl
  have e2 : LoxRef.sExecStmt 18 bobS2 0 bobRL1 = .ok (.normal, bobRL2) := by rfl
  have e3 : LoxRef.sExecStmt 17 bobS3 0 bobRL2 = .ok (.normal, bobRL3) := by rfl
  have e4 : LoxRef.sExecStmt 16 bobS4 0 bobRL3 = .ok (.normal, bobRL4) := by rfl
  have h1 : LoxRef.sExecStmts 20 bobProg 0 LoxRef.sInitState
      = LoxRef.sExecStmts 19 [bobS2, bobS3, bobS4] 0 bobRL1 :=
    LoxRef.sExecStmts_cons 19 bobS1 [bobS2, bobS3, bobS4] 0 LoxRef.sInitState bobRL1 e1
  have h2 : LoxRef.sExecStmts 19 [bobS2, bobS3, bobS4] 0 bobRL1
      = LoxRef.sExecStmts 18 [bobS3, bobS4] 0 bobRL2 :=
    LoxRef.sExecStmts_cons 18 bobS2 [bobS3, bobS4] 0 bobRL1 bobRL2 e2
  have h3 : LoxRef.sExecStmts 18 [bobS3, bobS4] 0 bobRL2
      = LoxRef.sExecStmts 17 [bobS4] 0 bobRL3 :=
    LoxRef.sExecStmts_cons 17 bobS3 [bobS4] 0 bobRL2 bobRL3 e3
  have h4 : LoxRef.sExecStmts 17 [bobS4] 0 bobRL3
      = LoxRef.sExecStmts 16 [] 0 bobRL4 :=
    LoxRef.sExecStmts_cons 16 bobS4 [] 0 bobRL3 bobRL4 e4
  have hend : LoxRef.sExecStmts 16 [] 0 bobRL4 = .ok (.normal, bobRL4) :=
    LoxRef.sExecStmts_nil 15 0 bobRL4
  unfold LoxRef.runRefOutput
  rw [h1, h2, h3, h4, hend]
  rfl

end Progs


/-!
The claims, settled against the embedded code (`Lox`, translated from
`callable.rs` plus the spec-modelled collaborators) and, where the claim's
content is the spec's shared-scope semantics, against the reference
evaluator (`LoxRef`, built from the spec's words).
-/

/-- C1: the closure test program prints 1 then 2 under the embedded code and
under the reference semantics alike — but the claim's mechanism ("a call
executes its body in a scope frame whose enclosing frame is the
captured_scope itself, shared storage, never a copy") is violated by the
source's `deep_copy`-then-copy-back strategy: on the `twice` program, whose
behaviour separates the two mechanisms, the code prints 0 where shared
captured scopes mandate 2. -/
theorem claim_c1 :
    Lox.runOutput Progs.counterProg 20 = .ok ["1", "2"] ∧
    LoxRef.runRefOutput Progs.counterProg 20 = .ok ["1", "2"] ∧
    Lox.runOutput Progs.twiceProg 20 = .ok ["0"] ∧
    LoxRef.runRefOutput Progs.twiceProg 20 = .ok ["2"] :=
  ⟨Progs.counter_run, Progs.counter_refRun, Progs.twice_run, Progs.twice_refRun⟩

/-- C2: `Function::call` performs no arity check at all, so the claimed
`ArityMismatch { expected, got }` failure never happens: calling the
one-parameter function with zero arguments host-panics at
`arguments.get(0).unwrap()` (embedded as `hostAbort`, a value distinct from
every `ArityMismatch`), and calling it with two arguments silently ignores
the extra argument and executes the whole body (the print of the first
argument is performed). -/
theorem claim_c2 :
    Lox.Function.call 5 Progs.oneParamFn [] Lox.initState = .error .hostAbort ∧
    Lox.Function.call 5 Progs.oneParamFn [.l (.num 7), .l (.num 8)] Lox.initState
      = .ok (none, ⟨[[], [], [("x", Lox.Obj.l (.num 7))]], none, ["7"], 0⟩) :=
  ⟨rfl, rfl⟩

/-- C4: recursion through the embedded code prints 1, 2, 3 for `count(3)`,
matching the reference semantics — but the claim's mechanism ("each
recursive call gets a fresh activation frame linked to the same
captured_scope") is violated by the `deep_copy` strategy: on the
accumulator program, where the mechanisms differ observably, the code
prints 2 where linking every activation to the one captured scope
mandates 3. -/
theorem claim_c4 :
    Lox.runOutput Progs.countrProg 20 = .ok ["1", "2", "3"] ∧
    LoxRef.runRefOutput Progs.countrProg 20 = .ok ["1", "2", "3"] ∧
    Lox.runOutput Progs.totalProg 20 = .ok ["2"] ∧
    LoxRef.runRefOutput Progs.totalProg 20 = .ok ["3"] :=
  ⟨Progs.countr_run, Progs.countr_refRun, Progs.total_run, Progs.total_refRun⟩

/-- C5: the global-mutation test program prints 4, 5, 5 under the embedded
code and the reference semantics alike — but the claim's general statement
(an assignment to an enclosing-frame variable mutates the shared binding,
visible to the caller after the call returns) is violated when the caller
is itself inside a call: in the nested program the code prints 0, 0 where
shared bindings mandate 1, 1, because the intermediate activation reads its
own stale deep copy and its copy-back reverts the global. -/
theorem claim_c5 :
    Lox.runOutput Progs.bobProg 20 = .ok ["4", "5", "5"] ∧
    LoxRef.runRefOutput Progs.bobProg 20 = .ok ["4", "5", "5"] ∧
    Lox.runOutput Progs.nestedProg 20 = .ok ["0", "0"] ∧
    LoxRef.runRefOutput Progs.nestedProg 20 = .ok ["1", "1"] :=
  ⟨Progs.bob_run, Progs.bob_refRun, Progs.nested_run, Progs.nested_refRun⟩

/-- C6: `arity()` is a pure query — a pure function in this embedding — and
for a user function with a parameter list it is the declared parameter
count, for a user function with no parameter list it is 0, and for the
native clock it is the fixed constant 0. -/
theorem claim_c6 :
    (∀ (name : String) (l : List Lox.Token) (body : Lox.Stmt) (cl : Lox.SymbolTable),
      Lox.Function.arity ⟨.function name (some l) body, cl⟩ = some l.length) ∧
    (∀ (name : String) (body : Lox.Stmt) (cl : Lox.SymbolTable),
      Lox.Function.arity ⟨.function name none body, cl⟩ = some 0) ∧
    Lox.Clock.arity = 0 :=
  ⟨fun _ _ _ _ => rfl, fun _ _ _ => rfl, rfl⟩

/-- C8 counterexample: the native clock's rendering is not the claimed
exact string `"<native fn>"`. -/
theorem claim_c8_counterexample : Lox.Clock.display ≠ "<native fn>" := by
  decide

/-- C8 (amended): the native clock renders as `"<native fn clock>"` (and
that is what `print` writes for the clock value), while every user function
with a well-formed declaration renders as `"<fn NAME>"`. -/
theorem claim_c8 :
    Lox.Clock.display = "<native fn clock>" ∧
    Lox.render Lox.Obj.clock = some "<native fn clock>" ∧
    (∀ (name : String) (ps : Option (List Lox.Token)) (body : Lox.Stmt)
       (cl : Lox.SymbolTable),
      Lox.Function.display ⟨.function name ps body, cl⟩ = some ("<fn " ++ name ++ ">")) :=
  ⟨rfl, rfl, fun _ _ _ _ => rfl⟩

/-- C9: `Function::call` has no arity check of its own — for a user function
with identifier parameters, a call with fewer arguments than parameters
reaches the unguarded `arguments.get(i).unwrap()` and host-panics
(`hostAbort`, not an `ArityMismatch` value), while a call with more
arguments than parameters never reads the extra arguments: it behaves
exactly as the call with the argument list truncated to the parameter
count. -/
theorem claim_c9 (name : String) (ps : List Lox.Token) (body : Lox.Stmt)
    (cl : Lox.SymbolTable) (args : List Lox.Obj) (st : Lox.InterpState) (fuel : Nat)
    (hid : Lox.allIdents ps = true) :
    (args.length < ps.length →
      Lox.Function.call (fuel + 1) ⟨.function name (some ps) body, cl⟩ args st
        = .error .hostAbort) ∧
    (ps.length ≤ args.length →
      Lox.Function.call fuel ⟨.function name (some ps) body, cl⟩ args st
        = Lox.Function.call fuel ⟨.function name (some ps) body, cl⟩
            (args.take ps.length) st) := by
  constructor
  · intro hlt
    simp only [Lox.Function.call, Option.getD]
    rw [Lox.bindParams_short ps 0 _ args _ _ hid (Nat.zero_le _) (by omega)]
  · intro hge
    cases fuel with
    | zero => rfl
    | succ k =>
        simp only [Lox.Function.call, Option.getD]
        rw [Lox.bindParams_take ps 0 _ args ps.length _ _ (by omega) hge]

/-- Witness for C9 at the one-parameter function `fun f(x){}`: the
zero-argument call host-panics, and the two-argument call coincides with
the call on the truncated one-argument list. -/
theorem claim_c9_witness :
    (Lox.Function.call 1
        ⟨.function "f" (some [Lox.Token.identifier "x"]) (.block []), Lox.globals⟩
        [] Lox.initState = .error .hostAbort) ∧
    (Lox.Function.call 5
        ⟨.function "f" (some [Lox.Token.identifier "x"]) (.block []), Lox.globals⟩
        [Lox.Obj.l (.num 7), Lox.Obj.l (.num 8)] Lox.initState
      = Lox.Function.call 5
          ⟨.function "f" (some [Lox.Token.identifier "x"]) (.block []), Lox.globals⟩
          ([Lox.Obj.l (.num 7), Lox.Obj.l (.num 8)].take 1) Lox.initState) :=
  ⟨(claim_c9 "f" [.identifier "x"] (.block []) Lox.globals [] Lox.initState 0
      rfl).1 (by decide),
   (claim_c9 "f" [.identifier "x"] (.block []) Lox.globals
      [.l (.num 7), .l (.num 8)] Lox.initState 5 rfl).2 (by decide)⟩

/-- C10 counterexample: on a `Function` whose declaration is a
`Stmt::Function` with a non-`Block` body the stated precondition fails, yet
`arity` does not panic — it reports the declared parameter count — and
`Display` does not panic either. -/
theorem claim_c10_counterexample :
    Lox.Function.arity ⟨.function "f" none (.print (.lit .nil)), Lox.globals⟩
      = some 0 ∧
    Lox.Function.arity ⟨.function "f" none (.print (.lit .nil)), Lox.globals⟩
      ≠ none ∧
    Lox.Function.display ⟨.function "f" none (.print (.lit .nil)), Lox.globals⟩
      = some "<fn f>" :=
  ⟨rfl, by decide, rfl⟩

/-- C10 (amended): `call` panics unless the declaration is a
`Stmt::Function` whose body is a `Block`; `arity` and `Display` panic
exactly when the declaration is not a `Stmt::Function` — they never inspect
the body, so on a `Stmt::Function` with a non-`Block` body only `call`
panics while `arity` and `Display` answer normally. -/
theorem claim_c10 :
    (∀ (decl : Lox.Stmt) (cl : Lox.SymbolTable),
      decl.isFunctionDecl = false →
        Lox.Function.arity ⟨decl, cl⟩ = none ∧
        Lox.Function.display ⟨decl, cl⟩ = none ∧
        ∀ (fuel : Nat) (args : List Lox.Obj) (st : Lox.InterpState),
          Lox.Function.call (fuel + 1) ⟨decl, cl⟩ args st = .error .hostAbort) ∧
    (∀ (name : String) (ps : Option (List Lox.Token)) (body : Lox.Stmt)
       (cl : Lox.SymbolTable),
      body.isBlockStmt = false →
        Lox.Function.arity ⟨.function name ps body, cl⟩
          = some (match ps with | none => 0 | some l => l.length) ∧
        Lox.Function.display ⟨.function name ps body, cl⟩
          = some ("<fn " ++ name ++ ">") ∧
        ∀ (fuel : Nat) (args : List Lox.Obj) (st : Lox.InterpState),
          Lox.Function.call (fuel + 1) ⟨.function name ps body, cl⟩ args st
            = .error .hostAbort) := by
  constructor
  · intro decl cl h
    cases decl
    case function n p b => simp [Lox.Stmt.isFunctionDecl] at h
    all_goals exact ⟨rfl, rfl, fun fuel args st => rfl⟩
  · intro name ps body cl h
    refine ⟨?_, rfl, fun fuel args st => ?_⟩
    · cases ps <;> rfl
    · simp only [Lox.Function.call]
      rcases Lox.bindParams_cases (ps.getD []) 0 args _ _ _ with h2 | ⟨st3, h2⟩
      · rw [h2]
      · rw [h2]
        cases body
        case block ss => simp [Lox.Stmt.isBlockStmt] at h
        all_goals rfl

/-- Witness for C10 at a print-statement declaration (not a
`Stmt::Function`) and at a one-parameter function declaration whose body is
a print statement (not a `Block`), called with one argument: only `call`
panics, while `arity` reports the declared parameter count 1 and `Display`
renders normally. -/
theorem claim_c10_witness :
    (Lox.Function.arity ⟨.print (.lit .nil), Lox.globals⟩ = none ∧
     Lox.Function.display ⟨.print (.lit .nil), Lox.globals⟩ = none ∧
     Lox.Function.call 1 ⟨.print (.lit .nil), Lox.globals⟩ [] Lox.initState
       = .error .hostAbort) ∧
    (Lox.Function.arity
       ⟨.function "g" (some [Lox.Token.identifier "y"]) (.print (.lit .nil)),
        Lox.globals⟩ = some 1 ∧
     Lox.Function.display
       ⟨.function "g" (some [Lox.Token.identifier "y"]) (.print (.lit .nil)),
        Lox.globals⟩ = some "<fn g>" ∧
     Lox.Function.call 1
       ⟨.function "g" (some [Lox.Token.identifier "y"]) (.print (.lit .nil)),
        Lox.globals⟩ [Lox.Obj.l (.num 9)] Lox.initState = .error .hostAbort) :=
  ⟨⟨(claim_c10.1 (.print (.lit .nil)) Lox.globals rfl).1,
    (claim_c10.1 (.print (.lit .nil)) Lox.globals rfl).2.1,
    (claim_c10.1 (.print (.lit .nil)) Lox.globals rfl).2.2 0 [] Lox.initState⟩,
   ⟨(claim_c10.2 "g" (some [.identifier "y"]) (.print (.lit .nil)) Lox.globals
       rfl).1,
    (claim_c10.2 "g" (some [.identifier "y"]) (.print (.lit .nil)) Lox.globals
       rfl).2.1,
    (claim_c10.2 "g" (some [.identifier "y"]) (.print (.lit .nil)) Lox.globals
       rfl).2.2 0 [.l (.num 9)] Lox.initState⟩⟩
